import Mathlib

/-
  Verification of the InternalComms embedded link layer.

  Shallow embedding of the peripheral firmware:
  - src/arduino/new_gun.ino   (first document)  — namespace Gun
  - src/arduino/new_gun2.ino                    — namespace Gun2 (button path only)
  - src/arduino/new_vest.ino  (first document)  — namespace Vest

  Machine integers (uint8_t) are modelled as Nat with explicit % 256 where the
  source wraps; the 4-slot retransmit ring is a total function Fin 4 → Packet;
  serial output and IR emission are modelled as explicit event lists.
  The millisecond clock is a Nat; `millis()` is monotone, so the C expression
  `curr - last` on unsigned long coincides with Nat subtraction in every state
  the firmware reaches.
-/

set_option maxRecDepth 8000

namespace InternalComms

/-- CRC-8 single bit step of the CRC8 library (polynomial 0x07, MSB first). -/
def crc8Bit (c : Nat) : Nat :=
  if 128 ≤ c then ((c * 2) % 256) ^^^ 7 else (c * 2) % 256

/-- CRC-8 absorb one byte: xor into the register, then eight bit steps. -/
def crc8Byte (c b : Nat) : Nat :=
  crc8Bit^[8] ((c % 256) ^^^ (b % 256))

/-- CRC-8 of a byte list, initial value 0x00, no reflection, no xor-out:
the checksum `crc8.restart(); crc8.add(buf, n); crc8.calc()` computes in the
firmware. -/
def crc8 (bs : List Nat) : Nat := bs.foldl crc8Byte 0

-- Packet type codes (ASCII), as in the #define table of new_gun.ino / new_vest.ino.
def SYN_PACKET : Nat := 83
def KILL_PACKET : Nat := 75
def ACK_PACKET : Nat := 65
def NAK_PACKET : Nat := 78
def IMU_PACKET : Nat := 77
def GUNSHOT_PACKET : Nat := 71
def RELOAD_PACKET : Nat := 82
def UPDATE_STATE_PACKET : Nat := 85
def GUNSTATE_ACK_PKT : Nat := 88
def VESTSHOT_PACKET : Nat := 86
def VESTSTATE_ACK_PKT : Nat := 87

namespace Gun

/-- The gun's 20-byte Packet struct, reduced to its meaningful fields
(packetType at offset 0, sqn at offset 1, remainingBullets at offset 2;
padding and crc are reconstructed at the wire). -/
structure GunPacket where
  packetType : Nat
  sqn : Nat
  remainingBullets : Nat
deriving DecidableEq, Repr

/-- Observable effects of one firmware action. -/
inductive GunEvent where
  | tx : GunPacket → GunEvent
  | ir : Nat → GunEvent
  | reset : GunEvent
deriving DecidableEq, Repr

/-- Global mutable state of new_gun.ino. -/
structure GunState where
  remainingBullets : Nat
  hasHandshake : Bool
  sqn : Nat
  expectedSeqNum : Nat
  currBufferIdx : Nat
  packetResendCount : Nat
  lastGunShotTime : Nat
  waitingForGunACK : Bool
  pendingBullets : Nat
  pendingIsPending : Bool
  packets : Fin 4 → GunPacket

/-- A zero-initialized Packet (the tx ring's power-on contents). -/
def zeroPacket : GunPacket := ⟨0, 0, 0⟩

/-- Power-on / setup() state of new_gun.ino. -/
def initState : GunState :=
  { remainingBullets := 6
    hasHandshake := false
    sqn := 0
    expectedSeqNum := 0
    currBufferIdx := 0
    packetResendCount := 0
    lastGunShotTime := 0
    waitingForGunACK := false
    pendingBullets := 6
    pendingIsPending := false
    packets := fun _ => zeroPacket }

/-- updatePendingState(remainingBullets) of new_gun.ino. -/
def updatePendingState (st : GunState) (b : Nat) : GunState :=
  { st with pendingBullets := b, pendingIsPending := true }

/-- applyPendingState() of new_gun.ino. -/
def applyPendingState (st : GunState) : GunState :=
  if st.pendingIsPending then
    { st with remainingBullets := st.pendingBullets, pendingIsPending := false }
  else st

/-- The packet assembled by sendPacket (lines 93-102 of new_gun.ino). -/
def mkPacket (st : GunState) (ptype : Nat) : GunPacket :=
  { packetType := ptype
    sqn := st.sqn
    remainingBullets :=
      if st.pendingIsPending then st.pendingBullets else st.remainingBullets }

/-- storePacket: write at currBufferIdx, advance the circular cursor.
currBufferIdx is always < 4, so the % 4 in the index is the identity. -/
def storePacket (st : GunState) (p : GunPacket) : GunState :=
  { st with
    packets := Function.update st.packets ⟨st.currBufferIdx % 4, Nat.mod_lt _ (by decide)⟩ p
    currBufferIdx := (st.currBufferIdx + 1) % 4 }

/-- retreivePacket(sqn): read ring slot sqn % PACKET_BUFFER_SIZE. -/
def retreivePacket (st : GunState) (s : Nat) : GunPacket :=
  st.packets ⟨s % 4, Nat.mod_lt _ (by decide)⟩

/-- sendPacket: build, transmit, and store unless the type is the handshake ACK. -/
def sendPacket (st : GunState) (ptype : Nat) : GunState × GunPacket :=
  let p := mkPacket st ptype
  if ptype ≠ ACK_PACKET then (storePacket st p, p) else (st, p)

/-- sendNAKPacket(seqNum): a NAK frame carrying the given sequence number.
The source leaves the remainingBullets byte of the struct uninitialized;
no claim depends on it, we fix it to 0. -/
def sendNAKPacket (seqNum : Nat) : GunPacket :=
  { packetType := NAK_PACKET, sqn := seqNum, remainingBullets := 0 }

/-- handlePacket of new_gun.ino (lines 123-170).
adjustLED(x) assigns remainingBullets = x before drawing, which is folded in. -/
def handlePacket (st : GunState) (p : GunPacket) (now : Nat) : GunState × List GunEvent :=
  if p.packetType = GUNSHOT_PACKET then
    if p.sqn = st.sqn then
      ({ applyPendingState st with
          waitingForGunACK := false
          packetResendCount := 0
          lastGunShotTime := now
          sqn := (st.sqn + 1) % 256 }, [])
    else (st, [GunEvent.tx (sendNAKPacket st.sqn)])
  else if p.packetType = RELOAD_PACKET then
    if p.sqn < st.expectedSeqNum then
      let r := sendPacket st RELOAD_PACKET
      (r.1, [GunEvent.tx r.2])
    else if st.expectedSeqNum < p.sqn then
      (st, [GunEvent.tx (sendNAKPacket st.expectedSeqNum)])
    else
      let st1 := { st with remainingBullets := 6 }
      let r := sendPacket st1 RELOAD_PACKET
      ({ r.1 with expectedSeqNum := (st.expectedSeqNum + 1) % 256 }, [GunEvent.tx r.2])
  else if p.packetType = UPDATE_STATE_PACKET then
    if p.sqn < st.expectedSeqNum then
      let r := sendPacket st GUNSTATE_ACK_PKT
      (r.1, [GunEvent.tx r.2])
    else if st.expectedSeqNum < p.sqn then
      (st, [GunEvent.tx (sendNAKPacket st.expectedSeqNum)])
    else
      let st1 := { st with remainingBullets := p.remainingBullets }
      let r := sendPacket st1 GUNSTATE_ACK_PKT
      ({ r.1 with expectedSeqNum := (st.expectedSeqNum + 1) % 256 }, [GunEvent.tx r.2])
  else if p.packetType = NAK_PACKET then
    (st, [GunEvent.tx (retreivePacket st p.sqn)])
  else if p.packetType = KILL_PACKET then
    (initState, [GunEvent.reset])
  else
    (st, [GunEvent.tx (sendNAKPacket st.expectedSeqNum)])

/-- Field extraction from a received 20-byte frame (the struct overlay
performed by Serial.readBytes into a Packet). -/
def parsePacket (frame : List Nat) : GunPacket :=
  { packetType := frame.getD 0 0 % 256
    sqn := frame.getD 1 0 % 256
    remainingBullets := frame.getD 2 0 % 256 }

/-- The serial-receive branch of loop() (lines 190-218 of new_gun.ino):
CRC check, then the SYN / ACK / default switch. On CRC mismatch the frame is
consumed and nothing else happens (the source has no else branch).
The ACK arm's adjustLED(remainingBullets) reassigns the current value, a no-op. -/
def serialStep (st : GunState) (frame : List Nat) (now : Nat) : GunState × List GunEvent :=
  let p := parsePacket frame
  if crc8 (frame.take 19) = frame.getD 19 0 then
    if p.packetType = SYN_PACKET then
      let st1 := { st with
        sqn := 0
        expectedSeqNum := 0
        hasHandshake := false
        pendingBullets := p.remainingBullets
        pendingIsPending := true }
      let r := sendPacket st1 ACK_PACKET
      (r.1, [GunEvent.tx r.2])
    else if p.packetType = ACK_PACKET then
      ({ applyPendingState st with hasHandshake := true }, [])
    else if st.hasHandshake then handlePacket st p now
    else (st, [])
  else (st, [])

/-- The debounced rising-edge body of readButton (lines 272-285 of new_gun.ino):
IR is emitted unconditionally, the canonical bullet count is decremented (clamped
at 0), the pending copy is set to the same value, and a GUNSHOT frame is sent. -/
def readButtonPress (st : GunState) (now : Nat) : GunState × List GunEvent :=
  let b := if 0 < st.remainingBullets then st.remainingBullets - 1 else 0
  let st1 := updatePendingState { st with remainingBullets := b } b
  let r := sendPacket st1 GUNSHOT_PACKET
  ({ r.1 with waitingForGunACK := true, lastGunShotTime := now },
    [GunEvent.ir 0xFF6897, GunEvent.tx r.2])

/-- The gunshot-timeout branch of loop() (lines 231-235 of new_gun.ino). -/
def timeoutStep (st : GunState) (now : Nat) : GunState × List GunEvent :=
  if st.waitingForGunACK ∧ 1000 < now - st.lastGunShotTime ∧ st.packetResendCount < 3 then
    let r := sendPacket st GUNSHOT_PACKET
    ({ r.1 with packetResendCount := st.packetResendCount + 1, lastGunShotTime := now },
      [GunEvent.tx r.2])
  else (st, [])

/-- Fold of sendPacket over a list of packet types. -/
def sendMany (st : GunState) (ts : List Nat) : GunState :=
  ts.foldl (fun s t => (sendPacket s t).1) st

/-- Fold of storePacket over a list of packets. -/
def storeMany (st : GunState) (ps : List GunPacket) : GunState :=
  ps.foldl storePacket st

/-- The gun after a completed handshake, all counters zero, full magazine. -/
def readyState : GunState := { initState with hasHandshake := true }

/-- The ready gun with an empty magazine (canonical and pending both 0). -/
def emptyGun : GunState := { readyState with remainingBullets := 0, pendingBullets := 0 }

end Gun

namespace Vest

/-- The vest's 20-byte Packet struct, reduced to its meaningful fields
(packetType at offset 0, sqn at 1, shield at 2, health at 3). -/
structure VestPacket where
  packetType : Nat
  sqn : Nat
  shield : Nat
  health : Nat
deriving DecidableEq, Repr

/-- Observable effects of one vest firmware action. -/
inductive VestEvent where
  | tx : VestPacket → VestEvent
  | reset : VestEvent
deriving DecidableEq, Repr

/-- Global mutable state of new_vest.ino. -/
structure VestState where
  shield : Nat
  health : Nat
  hasHandshake : Bool
  sqn : Nat
  expectedSeqNum : Nat
  currBufferIdx : Nat
  pendingShield : Nat
  pendingHealth : Nat
  pendingIsPending : Bool
  packets : Fin 4 → VestPacket

/-- A zero-initialized vest Packet (the tx ring's power-on contents). -/
def zeroPacket : VestPacket := ⟨0, 0, 0, 0⟩

/-- Power-on / setup() state of new_vest.ino: shield 0, health MAX_HEALTH=100. -/
def initState : VestState :=
  { shield := 0
    health := 100
    hasHandshake := false
    sqn := 0
    expectedSeqNum := 0
    currBufferIdx := 0
    pendingShield := 0
    pendingHealth := 100
    pendingIsPending := false
    packets := fun _ => zeroPacket }

/-- updatePendingState(shield, health) of new_vest.ino. -/
def updatePendingState (st : VestState) (s h : Nat) : VestState :=
  { st with pendingShield := s, pendingHealth := h, pendingIsPending := true }

/-- applyPendingState() of new_vest.ino (updateLED touches only the pixels). -/
def applyPendingState (st : VestState) : VestState :=
  if st.pendingIsPending then
    { st with shield := st.pendingShield, health := st.pendingHealth, pendingIsPending := false }
  else st

/-- applyDamageToPendingState(damage) of new_vest.ino (lines 130-144). -/
def applyDamageToPendingState (st : VestState) (damage : Nat) : VestState :=
  let st1 :=
    if damage ≤ st.pendingShield then
      { st with pendingShield := st.pendingShield - damage }
    else
      let remainingDamage := damage - st.pendingShield
      if remainingDamage < st.pendingHealth then
        { st with pendingShield := 0, pendingHealth := st.pendingHealth - remainingDamage }
      else
        { st with pendingShield := 0, pendingHealth := 100 }
  { st1 with pendingIsPending := true }

/-- The packet assembled by sendPacket (lines 91-101 of new_vest.ino). -/
def mkPacket (st : VestState) (ptype : Nat) : VestPacket :=
  { packetType := ptype
    sqn := st.sqn
    shield := if st.pendingIsPending then st.pendingShield else st.shield
    health := if st.pendingIsPending then st.pendingHealth else st.health }

/-- storePacket of new_vest.ino. -/
def storePacket (st : VestState) (p : VestPacket) : VestState :=
  { st with
    packets := Function.update st.packets ⟨st.currBufferIdx % 4, Nat.mod_lt _ (by decide)⟩ p
    currBufferIdx := (st.currBufferIdx + 1) % 4 }

/-- retreivePacket(sqn) of new_vest.ino. -/
def retreivePacket (st : VestState) (s : Nat) : VestPacket :=
  st.packets ⟨s % 4, Nat.mod_lt _ (by decide)⟩

/-- sendPacket: build, transmit, and store unless the type is the handshake ACK. -/
def sendPacket (st : VestState) (ptype : Nat) : VestState × VestPacket :=
  let p := mkPacket st ptype
  if ptype ≠ ACK_PACKET then (storePacket st p, p) else (st, p)

/-- sendNAKPacket(seqNum) of new_vest.ino; the shield and health bytes of the
struct are left uninitialized by the source, we fix them to 0. -/
def sendNAKPacket (seqNum : Nat) : VestPacket :=
  { packetType := NAK_PACKET, sqn := seqNum, shield := 0, health := 0 }

/-- handlePacket of new_vest.ino (lines 146-177). -/
def handlePacket (st : VestState) (p : VestPacket) : VestState × List VestEvent :=
  if p.packetType = VESTSHOT_PACKET then
    if p.sqn = st.sqn then
      ({ applyPendingState st with sqn := (st.sqn + 1) % 256 }, [])
    else (st, [VestEvent.tx (sendNAKPacket st.sqn)])
  else if p.packetType = UPDATE_STATE_PACKET then
    if p.sqn = st.expectedSeqNum then
      let st1 := updatePendingState st p.shield p.health
      let r := sendPacket st1 VESTSTATE_ACK_PKT
      ({ applyPendingState r.1 with expectedSeqNum := (st.expectedSeqNum + 1) % 256 },
        [VestEvent.tx r.2])
    else (st, [VestEvent.tx (sendNAKPacket st.expectedSeqNum)])
  else if p.packetType = NAK_PACKET then
    (st, [VestEvent.tx (retreivePacket st p.sqn)])
  else if p.packetType = KILL_PACKET then
    (initState, [VestEvent.reset])
  else
    (st, [VestEvent.tx (sendNAKPacket st.expectedSeqNum)])

/-- Field extraction from a received 20-byte frame. -/
def parsePacket (frame : List Nat) : VestPacket :=
  { packetType := frame.getD 0 0 % 256
    sqn := frame.getD 1 0 % 256
    shield := frame.getD 2 0 % 256
    health := frame.getD 3 0 % 256 }

/-- The serial-receive branch of loop() (lines 192-218 of new_vest.ino):
before the handshake only SYN and ACK are understood; afterwards every
CRC-valid frame goes to handlePacket. A CRC mismatch consumes the frame
and does nothing else (the source has no else branch). -/
def serialStep (st : VestState) (frame : List Nat) : VestState × List VestEvent :=
  let p := parsePacket frame
  if crc8 (frame.take 19) = frame.getD 19 0 then
    if st.hasHandshake = false then
      if p.packetType = SYN_PACKET then
        let st1 := updatePendingState { st with sqn := 0, expectedSeqNum := 0 } p.shield p.health
        let r := sendPacket st1 ACK_PACKET
        (r.1, [VestEvent.tx r.2])
      else if p.packetType = ACK_PACKET then
        ({ applyPendingState st with hasHandshake := true }, [])
      else (st, [])
    else handlePacket st p
  else (st, [])

/-- The IR branch of loop() (lines 222-226 of new_vest.ino): on a decoded NEC
command 0x16, apply 5 damage to the pending copy and transmit VESTSHOT. -/
def irHit (st : VestState) : VestState × List VestEvent :=
  let st1 := applyDamageToPendingState st 5
  let r := sendPacket st1 VESTSHOT_PACKET
  (r.1, [VestEvent.tx r.2])

/-- One full iteration of loop() of new_vest.ino: at most one serial frame,
then the IR receiver poll. The loop contains no timeout/retransmission code
(the PacketTimeout block of the source is commented out), so time is not an
input. -/
def loopStep (st : VestState) (frame : Option (List Nat)) (irCmd : Option Nat) :
    VestState × List VestEvent :=
  let a := match frame with
    | some f => serialStep st f
    | none => (st, [])
  if a.1.hasHandshake then
    match irCmd with
    | some c =>
      if c = 0x16 then
        let b := irHit a.1
        (b.1, a.2 ++ b.2)
      else a
    | none => a
  else a

/-- Fold of storePacket over a list of packets. -/
def storeMany (st : VestState) (ps : List VestPacket) : VestState :=
  ps.foldl storePacket st

/-- The vest after a completed handshake at full health. -/
def readyState : VestState := { initState with hasHandshake := true }

/-- Reference damage rule, written from the specification text of §4.6: damage
consumes shield first, then health; if health would drop to zero or below, the
state snaps to shield 0, health 100. Stated on (shield, health) pairs; used to
compare against applyDamageToPendingState. -/
def refDamage (d : Nat) (sh : Nat × Nat) : Nat × Nat :=
  if d ≤ sh.1 then (sh.1 - d, sh.2)
  else if sh.2 ≤ d - sh.1 then (0, 100)
  else (0, sh.2 - (d - sh.1))

/-- The pending (shield, health) pair of a vest state. -/
def pendingPair (st : VestState) : Nat × Nat := (st.pendingShield, st.pendingHealth)

end Vest

namespace Gun2

/-- new_gun2.ino Packet: packetType, sqn, shotID, remainingBullets. -/
structure G2Packet where
  packetType : Nat
  sqn : Nat
  shotID : Nat
  remainingBullets : Nat
deriving DecidableEq, Repr

/-- Observable effects of one new_gun2.ino action. -/
inductive G2Event where
  | tx : G2Packet → G2Event
  | ir : Nat → G2Event
deriving DecidableEq, Repr

/-- The new_gun2.ino globals relevant to the trigger path. -/
structure G2State where
  currShot : Nat
  remainingBullets : Nat
  sqn : Nat
  currBufferIdx : Nat
  lastGunShotTime : Nat
  waitingForGunACK : Bool
  pendingCurrShot : Nat
  pendingBullets : Nat
  pendingIsPending : Bool
  packets : Fin 4 → G2Packet


/-- The packet assembled by sendPacket of new_gun2.ino (lines 96-106). -/
def mkPacket (st : G2State) (ptype : Nat) : G2Packet :=
  { packetType := ptype
    sqn := st.sqn
    shotID := if st.pendingIsPending then st.pendingCurrShot else st.currShot
    remainingBullets :=
      if st.pendingIsPending then st.pendingBullets else st.remainingBullets }

/-- storePacket of new_gun2.ino. -/
def storePacket (st : G2State) (p : G2Packet) : G2State :=
  { st with
    packets := Function.update st.packets ⟨st.currBufferIdx % 4, Nat.mod_lt _ (by decide)⟩ p
    currBufferIdx := (st.currBufferIdx + 1) % 4 }

/-- sendPacket of new_gun2.ino: store unless handshake ACK. -/
def sendPacket (st : G2State) (ptype : Nat) : G2State × G2Packet :=
  let p := mkPacket st ptype
  if ptype ≠ ACK_PACKET then (storePacket st p, p) else (st, p)

/-- The debounced rising-edge body of readButton of new_gun2.ino (lines
271-279): the whole action is guarded by remainingBullets > 0; inside, IR is
emitted, the canonical count pre-decremented, the pending pair updated to
(currShot, new count), and a GUNSHOT frame sent. -/
def readButtonPress (st : G2State) (now : Nat) : G2State × List G2Event :=
  if 0 < st.remainingBullets then
    let b := st.remainingBullets - 1
    let st1 := { st with
      remainingBullets := b
      pendingCurrShot := st.currShot
      pendingBullets := b
      pendingIsPending := true }
    let r := sendPacket st1 GUNSHOT_PACKET
    ({ r.1 with waitingForGunACK := true, lastGunShotTime := now },
      [G2Event.ir 0xFF6897, G2Event.tx r.2])
  else (st, [])

/-- A handshaken new_gun2 gun with an empty magazine. -/
def emptyGun2 : G2State :=
  { currShot := 7
    remainingBullets := 0
    sqn := 6
    currBufferIdx := 2
    lastGunShotTime := 0
    waitingForGunACK := false
    pendingCurrShot := 7
    pendingBullets := 0
    pendingIsPending := false
    packets := fun _ => ⟨0, 0, 0, 0⟩ }

end Gun2

-- Concrete fixtures used by the theorems below.

/-- A 20-byte frame whose stored CRC byte (1) differs from the true CRC-8 of
its first 19 bytes (0). -/
def badFrame : List Nat := List.replicate 19 0 ++ [1]

/-- First 19 bytes of a host SYN frame for the gun: type 'S', seq 0, bullets 2. -/
def synPayloadG : List Nat := [83, 0, 2] ++ List.replicate 16 0

/-- A CRC-valid SYN frame for the gun. -/
def synFrameG : List Nat := synPayloadG ++ [crc8 synPayloadG]

/-- First 19 bytes of a host handshake ACK frame. -/
def ackPayload : List Nat := 65 :: List.replicate 18 0

/-- A CRC-valid handshake ACK frame. -/
def ackFrame : List Nat := ackPayload ++ [crc8 ackPayload]

/-- First 19 bytes of a host SYN frame for the vest: type 'S', seq 0,
shield 7, health 50. -/
def synPayloadV : List Nat := [83, 0, 7, 50] ++ List.replicate 15 0

/-- A CRC-valid SYN frame for the vest. -/
def synFrameV : List Nat := synPayloadV ++ [crc8 synPayloadV]

/-- The gun right after a debounced trigger press at full magazine. -/
def pressedGun : Gun.GunState := (Gun.readButtonPress Gun.readyState 0).1

/-- The pressed gun after its retransmit budget is exhausted. -/
def abandonedGun : Gun.GunState := { pressedGun with packetResendCount := 3 }

/-- A mid-session gun with nonzero sequence counters. -/
def midGun : Gun.GunState :=
  { Gun.readyState with sqn := 5, expectedSeqNum := 7, remainingBullets := 2 }

/-- The gun state after the SYN of a reconnection handshake. -/
def gunSynLatched : Gun.GunState := (Gun.serialStep midGun synFrameG 0).1

/-- Five GUNSHOT frames with consecutive sequence numbers 0..4; storing all
five overwrites ring slot 0 (the frame with seq 0 is lost). -/
def shotPackets : List Gun.GunPacket :=
  [⟨71, 0, 5⟩, ⟨71, 1, 4⟩, ⟨71, 2, 3⟩, ⟨71, 3, 2⟩, ⟨71, 4, 1⟩]

/-- The ready gun after its ring has absorbed the five frames above. -/
def gunRing5 : Gun.GunState := Gun.storeMany Gun.readyState shotPackets

/-- The gun after processing the in-order UPDATE_STATE frame with seq 0. -/
def gunAfterUpd : Gun.GunState :=
  (Gun.handlePacket Gun.readyState ⟨UPDATE_STATE_PACKET, 0, 3⟩ 0).1

/-- A mid-session vest with nonzero sequence counters. -/
def vestMid : Vest.VestState :=
  { Vest.readyState with sqn := 3, expectedSeqNum := 2 }

/-- The vest right after an IR hit: a VESTSHOT is outstanding and unconfirmed. -/
def vestShotPending : Vest.VestState := (Vest.irHit Vest.readyState).1

/-- A vest within the claimed ranges whose health is already 0. -/
def zeroHealthVest : Vest.VestState :=
  { Vest.readyState with
    shield := 30, health := 0, pendingShield := 30, pendingHealth := 0 }

/-- A host UPDATE_STATE frame for the vest, seq 0, shield 10, health 90. -/
def updFrame0 : Vest.VestPacket := ⟨UPDATE_STATE_PACKET, 0, 10, 90⟩

/-- The vest after processing updFrame0 in order. -/
def vestAfterUpd : Vest.VestState := (Vest.handlePacket Vest.readyState updFrame0).1

/-- Iterated IR hits on the vest. -/
def Vest.hits (n : Nat) (st : Vest.VestState) : Vest.VestState :=
  (fun s => (Vest.irHit s).1)^[n] st

-- Helper lemmas.

/-- Vest sendPacket only touches the ring and its cursor. -/
theorem vest_sendPacket_preserves (st : Vest.VestState) (t : Nat) :
    (Vest.sendPacket st t).1.pendingShield = st.pendingShield ∧
    (Vest.sendPacket st t).1.pendingHealth = st.pendingHealth ∧
    (Vest.sendPacket st t).1.pendingIsPending = st.pendingIsPending ∧
    (Vest.sendPacket st t).1.shield = st.shield ∧
    (Vest.sendPacket st t).1.health = st.health := by
  unfold Vest.sendPacket Vest.storePacket
  split <;> simp

/-- applyDamageToPendingState rewrites the pending pair exactly as the
specification's damage rule does. -/
theorem applyDamage_pendingPair (st : Vest.VestState) (d : Nat) :
    Vest.pendingPair (Vest.applyDamageToPendingState st d) =
      Vest.refDamage d (Vest.pendingPair st) := by
  rcases le_or_lt d st.pendingShield with h1 | h1
  · simp [Vest.applyDamageToPendingState, Vest.refDamage, Vest.pendingPair, h1]
  · rcases lt_or_le (d - st.pendingShield) st.pendingHealth with h2 | h2
    · simp [Vest.applyDamageToPendingState, Vest.refDamage, Vest.pendingPair,
        not_le.mpr h1, h2, not_le.mpr h2]
    · simp [Vest.applyDamageToPendingState, Vest.refDamage, Vest.pendingPair,
        not_le.mpr h1, not_lt.mpr h2, h2]

/-- One IR hit rewrites the pending pair exactly as the specification's damage
rule does (the VESTSHOT send afterwards only touches the ring). -/
theorem irHit_pendingPair (st : Vest.VestState) :
    Vest.pendingPair (Vest.irHit st).1 = Vest.refDamage 5 (Vest.pendingPair st) := by
  have h1 := vest_sendPacket_preserves (Vest.applyDamageToPendingState st 5) VESTSHOT_PACKET
  have h2 := applyDamage_pendingPair st 5
  unfold Vest.irHit
  simp only [Vest.pendingPair] at h2 ⊢
  rw [Prod.mk.injEq] at h2 ⊢
  exact ⟨h1.1.trans h2.1, h1.2.1.trans h2.2⟩

/-- The specification's damage rule never leaves a positive health at zero. -/
theorem refDamage_health_pos (d : Nat) (p : Nat × Nat) (h : 1 ≤ p.2) :
    1 ≤ (Vest.refDamage d p).2 := by
  unfold Vest.refDamage
  split_ifs <;> simp_all
  all_goals omega

/-- Iterated IR hits compute the iterated damage rule on the pending pair. -/
theorem hits_pendingPair (n : Nat) (st : Vest.VestState) :
    Vest.pendingPair (Vest.hits n st) = (Vest.refDamage 5)^[n] (Vest.pendingPair st) := by
  induction n with
  | zero => rfl
  | succ n ih =>
    rw [Vest.hits, Function.iterate_succ_apply', Function.iterate_succ_apply',
      ← Vest.hits, irHit_pendingPair, ih]

/-- Iterating the damage rule preserves positive health. -/
theorem refDamage_iterate_health_pos (n : Nat) (p : Nat × Nat) (h : 1 ≤ p.2) :
    1 ≤ ((Vest.refDamage 5)^[n] p).2 := by
  induction n generalizing p with
  | zero => exact h
  | succ n ih => rw [Function.iterate_succ_apply]; exact ih _ (refDamage_health_pos 5 p h)

-- Claim theorems.

/-- C1: evaluation of the divergence. readButton of new_gun.ino decrements the
canonical remainingBullets variable itself at press time (line 275), before any
host echo exists: one debounced press on the fresh handshaken gun takes
canonical ammo from 6 to 5 while waiting_for_gun_ack is still set, so the
claim's clause that canonical ammo is unchanged until (and unless) the matching
GUNSHOT echo arrives is contradicted by the code; the pending machinery's
promotion on the echo is a value-level no-op. -/
theorem gun_press_decrements_canonical_before_ack :
    Gun.readyState.remainingBullets = 6 ∧
    Gun.readyState.waitingForGunACK = false ∧
    (Gun.readButtonPress Gun.readyState 100).1.remainingBullets = 5 ∧
    (Gun.readButtonPress Gun.readyState 100).1.waitingForGunACK = true ∧
    (Gun.readButtonPress Gun.readyState 100).1.pendingBullets = 5 :=
  ⟨rfl, rfl, rfl, rfl, rfl⟩

/-- C2 counterexample: the state (shield = 30, health = 0) lies inside the
claimed ranges shield ∈ [0,30], health ∈ [0,100], yet after one IR hit the
pending health is still 0 — the hit is fully absorbed by the shield and the
snap rule never fires — contradicting the claim's clause that health is never
left at 0 after a hit. -/
theorem vest_damage_health_zero_counterexample :
    zeroHealthVest.pendingShield = 30 ∧
    zeroHealthVest.pendingHealth = 0 ∧
    (Vest.irHit zeroHealthVest).1.pendingHealth = 0 ∧
    (Vest.irHit zeroHealthVest).1.pendingShield = 25 :=
  ⟨rfl, rfl, rfl, rfl⟩

/-- C2 amended: for any state with shield ∈ [0,30] and health ∈ [0,100], the
pending state after n IR hits of damage 5 equals the n-fold application of the
reference rule (shield first, then health, snap to (0,100) when health would
reach zero or below) — the equality holds for every such starting state,
health 0 included; and provided the starting health is at least 1 — rather
than merely in [0,100] — health is never left at 0 after a hit. -/
theorem vest_damage_matches_reference_iterated (st : Vest.VestState) (n : Nat)
    (_hs : st.pendingShield ≤ 30) (_hh : st.pendingHealth ≤ 100) :
    Vest.pendingPair (Vest.hits n st) = (Vest.refDamage 5)^[n] (Vest.pendingPair st) ∧
    (1 ≤ st.pendingHealth → 1 ≤ (Vest.pendingPair (Vest.hits n st)).2) := by
  refine ⟨hits_pendingPair n st, fun h1 => ?_⟩
  rw [hits_pendingPair n st]
  exact refDamage_iterate_health_pos n _ h1

/-- C2 witness: the amended theorem applied to the fresh vest and three hits. -/
theorem vest_damage_matches_reference_iterated_witness :
    Vest.readyState.pendingShield ≤ 30 ∧ Vest.readyState.pendingHealth ≤ 100 ∧
    (Vest.pendingPair (Vest.hits 3 Vest.readyState) =
        (Vest.refDamage 5)^[3] (Vest.pendingPair Vest.readyState) ∧
      (1 ≤ Vest.readyState.pendingHealth →
        1 ≤ (Vest.pendingPair (Vest.hits 3 Vest.readyState)).2)) :=
  ⟨by decide, by decide,
    vest_damage_matches_reference_iterated Vest.readyState 3 (by decide) (by decide)⟩

/-- C5 counterexample: on the 20-byte frame of nineteen zero bytes followed by
the wrong CRC byte 1, both the gun's and the vest's receive branches consume
the frame, emit nothing — in particular no NAK(rx_expected) — and leave every
state variable untouched, contradicting the claimed NAK emission. -/
theorem crc_mismatch_silent_drop_counterexample :
    Gun.serialStep Gun.readyState badFrame 0 = (Gun.readyState, []) ∧
    Vest.serialStep Vest.readyState badFrame = (Vest.readyState, []) :=
  ⟨rfl, rfl⟩

/-- C5 amended: a received frame whose CRC-8 over bytes 0..18 differs from
byte 19 is consumed and silently discarded by both peripherals: no NAK (or any
other frame) is emitted and no state changes; the input buffer is not flushed
beyond the 20 bytes already read. -/
theorem crc_mismatch_silent_drop (g : Gun.GunState) (v : Vest.VestState)
    (f : List Nat) (now : Nat) (h : crc8 (f.take 19) ≠ f.getD 19 0) :
    Gun.serialStep g f now = (g, []) ∧ Vest.serialStep v f = (v, []) := by
  constructor
  · unfold Gun.serialStep
    rw [if_neg h]
  · unfold Vest.serialStep
    rw [if_neg h]

/-- C5 witness: the amended theorem applied to the bad frame fixture. -/
theorem crc_mismatch_silent_drop_witness :
    crc8 (badFrame.take 19) ≠ badFrame.getD 19 0 ∧
    (Gun.serialStep midGun badFrame 3 = (midGun, []) ∧
      Vest.serialStep vestMid badFrame = (vestMid, [])) :=
  ⟨by decide, crc_mismatch_silent_drop midGun vestMid badFrame 3 (by decide)⟩

/-- C6 counterexample: after the gun has stored the five GUNSHOT frames with
seq 0..4 the ring slot 0 has been overwritten by the seq-4 frame; on
NAK(seq = 0) the gun retransmits that seq-4 frame verbatim and neither emits a
KILL frame nor self-resets (the state is unchanged), contradicting the claimed
KILL-and-reset response to a beyond-window NAK. -/
theorem nak_beyond_window_counterexample :
    (Gun.handlePacket gunRing5 ⟨NAK_PACKET, 0, 0⟩ 0).2 =
      [Gun.GunEvent.tx ⟨GUNSHOT_PACKET, 4, 1⟩] ∧
    (Gun.handlePacket gunRing5 ⟨NAK_PACKET, 0, 0⟩ 0).1 = gunRing5 :=
  ⟨rfl, rfl⟩

/-- C6 amended: on NAK(seq = n) the peripheral unconditionally retransmits
verbatim whatever frame currently occupies ring slot n mod 4 — which is the
frame sent with seq n only while that frame is among the last four stores —
changes no state, and never emits a KILL nor self-resets; the device resets
only when it itself receives a KILL frame. -/
theorem nak_retransmits_ring_slot (st : Gun.GunState) (p : Gun.GunPacket)
    (now : Nat) (hg : p.packetType = NAK_PACKET)
    (v : Vest.VestState) (q : Vest.VestPacket) (hv : q.packetType = NAK_PACKET) :
    Gun.handlePacket st p now = (st, [Gun.GunEvent.tx (Gun.retreivePacket st p.sqn)]) ∧
    Vest.handlePacket v q = (v, [Vest.VestEvent.tx (Vest.retreivePacket v q.sqn)]) := by
  constructor
  · unfold Gun.handlePacket
    rw [hg]
    norm_num [NAK_PACKET, GUNSHOT_PACKET, RELOAD_PACKET, UPDATE_STATE_PACKET]
  · unfold Vest.handlePacket
    rw [hv]
    norm_num [NAK_PACKET, VESTSHOT_PACKET, UPDATE_STATE_PACKET]

/-- C6 witness: the amended theorem applied to the ready peripherals. -/
theorem nak_retransmits_ring_slot_witness :
    (⟨NAK_PACKET, 2, 0⟩ : Gun.GunPacket).packetType = NAK_PACKET ∧
    (⟨NAK_PACKET, 3, 0, 0⟩ : Vest.VestPacket).packetType = NAK_PACKET ∧
    (Gun.handlePacket Gun.readyState ⟨NAK_PACKET, 2, 0⟩ 9 =
        (Gun.readyState, [Gun.GunEvent.tx (Gun.retreivePacket Gun.readyState 2)]) ∧
      Vest.handlePacket Vest.readyState ⟨NAK_PACKET, 3, 0, 0⟩ =
        (Vest.readyState, [Vest.VestEvent.tx (Vest.retreivePacket Vest.readyState 3)])) :=
  ⟨rfl, rfl, nak_retransmits_ring_slot Gun.readyState ⟨NAK_PACKET, 2, 0⟩ 9 rfl
    Vest.readyState ⟨NAK_PACKET, 3, 0, 0⟩ rfl⟩

/-- C8: evaluation of the divergence. In new_gun.ino a debounced press with
remainingBullets = 0 still emits the IR code 0xFF6897 and a sequence-tracked
GUNSHOT frame and sets waiting_for_gun_ack (readButton calls sendNEC before
the bullet check and sends unconditionally), while in new_gun2.ino — whose
readButton guards the whole action with remainingBullets > 0, as the claim
states — the same press emits nothing and changes nothing. The claim is the
code's own intent (sibling variant and spec agree); new_gun.ino is the slip. -/
theorem gun_empty_press_still_fires :
    Gun.emptyGun.remainingBullets = 0 ∧
    (Gun.readButtonPress Gun.emptyGun 100).2 =
      [Gun.GunEvent.ir 0xFF6897, Gun.GunEvent.tx ⟨GUNSHOT_PACKET, 0, 0⟩] ∧
    (Gun.readButtonPress Gun.emptyGun 100).1.waitingForGunACK = true ∧
    Gun2.emptyGun2.remainingBullets = 0 ∧
    Gun2.readButtonPress Gun2.emptyGun2 100 = (Gun2.emptyGun2, []) :=
  ⟨rfl, rfl, rfl, rfl, rfl⟩

/-- C3 counterexample: the vest right after an IR hit has an outstanding,
unconfirmed VESTSHOT (pending flag set), yet a full loop iteration with no
serial input and no new IR hit emits nothing and changes nothing — and so does
the next one; new_vest.ino contains no timeout or resend-count code at all
(its PacketTimeout block is commented out), so the VESTSHOT is never
retransmitted no matter how much time passes, contradicting the claimed
vest-side retransmission. -/
theorem vest_no_retransmit_counterexample :
    vestShotPending.pendingIsPending = true ∧
    Vest.loopStep vestShotPending none none = (vestShotPending, []) ∧
    Vest.loopStep (Vest.loopStep vestShotPending none none).1 none none =
      ((Vest.loopStep vestShotPending none none).1, []) :=
  ⟨rfl, rfl, rfl⟩

/-- C3 amended: only the gun retransmits. While waiting_for_gun_ack is set,
more than 1000 ms have elapsed and resend_count < 3, the gun's timeout branch
re-sends a freshly rebuilt GUNSHOT frame whose content (seq and bullet count)
is identical to the cached one — the seq and pending fields are untouched, so
every retransmission carries the same bytes — and increments resend_count;
once resend_count reaches 3 the timeout branch does nothing, so there are at
most 3 retransmissions, and the pending state is not promoted on abandonment
(but canonical ammo was already decremented at press time, see C1). The vest
never retransmits VESTSHOT: its loop has no timeout code. -/
theorem shot_retransmit_gun_only (st : Gun.GunState) (now : Nat) (v : Vest.VestState)
    (hw : st.waitingForGunACK = true) (ht : 1000 < now - st.lastGunShotTime) :
    (st.packetResendCount < 3 →
      (Gun.timeoutStep st now).2 = [Gun.GunEvent.tx (Gun.mkPacket st GUNSHOT_PACKET)] ∧
      (Gun.timeoutStep st now).1.packetResendCount = st.packetResendCount + 1 ∧
      (Gun.timeoutStep st now).1.sqn = st.sqn ∧
      (Gun.timeoutStep st now).1.remainingBullets = st.remainingBullets ∧
      (Gun.timeoutStep st now).1.pendingBullets = st.pendingBullets ∧
      (Gun.timeoutStep st now).1.pendingIsPending = st.pendingIsPending ∧
      (Gun.timeoutStep st now).1.waitingForGunACK = true) ∧
    (3 ≤ st.packetResendCount → Gun.timeoutStep st now = (st, [])) ∧
    Vest.loopStep v none none = (v, []) := by
  refine ⟨fun hr => ?_, fun hr => ?_, ?_⟩
  · unfold Gun.timeoutStep
    rw [if_pos ⟨hw, ht, hr⟩]
    simp [Gun.sendPacket, Gun.storePacket, Gun.mkPacket, GUNSHOT_PACKET, ACK_PACKET, hw]
  · unfold Gun.timeoutStep
    rw [if_neg (fun h => absurd h.2.2 (by omega))]
  · cases hv : v.hasHandshake <;> simp [Vest.loopStep, hv]

/-- C3 witness: the amended theorem applied to the just-pressed gun at
now = 2000 ms, and to the abandoned gun whose resend budget is exhausted. -/
theorem shot_retransmit_gun_only_witness :
    pressedGun.waitingForGunACK = true ∧
    1000 < 2000 - pressedGun.lastGunShotTime ∧
    ((pressedGun.packetResendCount < 3 →
      (Gun.timeoutStep pressedGun 2000).2 =
        [Gun.GunEvent.tx (Gun.mkPacket pressedGun GUNSHOT_PACKET)] ∧
      (Gun.timeoutStep pressedGun 2000).1.packetResendCount =
        pressedGun.packetResendCount + 1 ∧
      (Gun.timeoutStep pressedGun 2000).1.sqn = pressedGun.sqn ∧
      (Gun.timeoutStep pressedGun 2000).1.remainingBullets = pressedGun.remainingBullets ∧
      (Gun.timeoutStep pressedGun 2000).1.pendingBullets = pressedGun.pendingBullets ∧
      (Gun.timeoutStep pressedGun 2000).1.pendingIsPending = pressedGun.pendingIsPending ∧
      (Gun.timeoutStep pressedGun 2000).1.waitingForGunACK = true) ∧
    (3 ≤ pressedGun.packetResendCount → Gun.timeoutStep pressedGun 2000 = (pressedGun, [])) ∧
    Vest.loopStep vestShotPending none none = (vestShotPending, [])) :=
  ⟨rfl, by decide,
    shot_retransmit_gun_only pressedGun 2000 vestShotPending rfl (by decide)⟩

/-- C4 counterexample: the vest processes UPDATE_STATE(seq 0, shield 10,
health 90) once (rx_expected becomes 1, canonical state (10, 90)); re-delivering
the very same frame elicits a NAK(seq = 1) — new_vest.ino answers every
out-of-expected seq, duplicates included, with a NAK and has no cached-ACK
path — contradicting the claim that a re-delivered processed frame causes only
a repeated role-ACK and not a NAK. -/
theorem vest_duplicate_update_naks_counterexample :
    vestAfterUpd.expectedSeqNum = 1 ∧
    vestAfterUpd.shield = 10 ∧
    vestAfterUpd.health = 90 ∧
    (Vest.handlePacket vestAfterUpd updFrame0).2 =
      [Vest.VestEvent.tx ⟨NAK_PACKET, 1, 0, 0⟩] ∧
    (Vest.handlePacket vestAfterUpd updFrame0).1.shield = 10 ∧
    (Vest.handlePacket vestAfterUpd updFrame0).1.health = 90 ∧
    (Vest.handlePacket vestAfterUpd updFrame0).1.expectedSeqNum = 1 :=
  ⟨rfl, rfl, rfl, rfl, rfl, rfl, rfl⟩

/-- C4 amended: re-delivering an already-processed UPDATE_STATE leaves
canonical state, the pending flag and rx_expected unchanged on both
peripherals, and the in-order pending-to-canonical application happened
exactly once; but the duplicate response differs from the claim: the gun
answers with a freshly built GUNSTATE_ACK carrying its current tx seq and
current state (not a cached ACK at the old seq — and the fresh ACK is even
stored into the retransmit ring), while the vest answers duplicates with
NAK(rx_expected), not a role-ACK. -/
theorem duplicate_update_state_behavior (st : Gun.GunState) (p : Gun.GunPacket)
    (now : Nat) (hp : p.packetType = UPDATE_STATE_PACKET)
    (hdup : p.sqn < st.expectedSeqNum)
    (v : Vest.VestState) (q : Vest.VestPacket)
    (hq : q.packetType = UPDATE_STATE_PACKET) (hvd : q.sqn ≠ v.expectedSeqNum) :
    (Gun.handlePacket st p now).2 = [Gun.GunEvent.tx (Gun.mkPacket st GUNSTATE_ACK_PKT)] ∧
    (Gun.handlePacket st p now).1.remainingBullets = st.remainingBullets ∧
    (Gun.handlePacket st p now).1.expectedSeqNum = st.expectedSeqNum ∧
    (Gun.handlePacket st p now).1.pendingIsPending = st.pendingIsPending ∧
    (Gun.handlePacket st p now).1.pendingBullets = st.pendingBullets ∧
    Vest.handlePacket v q = (v, [Vest.VestEvent.tx (Vest.sendNAKPacket v.expectedSeqNum)]) := by
  have hgun : Gun.handlePacket st p now =
      ((Gun.sendPacket st GUNSTATE_ACK_PKT).1,
        [Gun.GunEvent.tx (Gun.sendPacket st GUNSTATE_ACK_PKT).2]) := by
    unfold Gun.handlePacket
    rw [hp]
    norm_num [UPDATE_STATE_PACKET, GUNSHOT_PACKET, RELOAD_PACKET, if_pos hdup]
  have hvest : Vest.handlePacket v q =
      (v, [Vest.VestEvent.tx (Vest.sendNAKPacket v.expectedSeqNum)]) := by
    unfold Vest.handlePacket
    rw [hq]
    norm_num [UPDATE_STATE_PACKET, VESTSHOT_PACKET, if_neg hvd]
  rw [hgun]
  exact ⟨by simp [Gun.sendPacket, ACK_PACKET, GUNSTATE_ACK_PKT],
    by simp [Gun.sendPacket, Gun.storePacket, ACK_PACKET, GUNSTATE_ACK_PKT],
    by simp [Gun.sendPacket, Gun.storePacket, ACK_PACKET, GUNSTATE_ACK_PKT],
    by simp [Gun.sendPacket, Gun.storePacket, ACK_PACKET, GUNSTATE_ACK_PKT],
    by simp [Gun.sendPacket, Gun.storePacket, ACK_PACKET, GUNSTATE_ACK_PKT],
    hvest⟩

/-- C4 witness: the amended theorem applied to the peripherals that have each
processed the seq-0 UPDATE_STATE once and now see it again. -/
theorem duplicate_update_state_behavior_witness :
    (⟨UPDATE_STATE_PACKET, 0, 3⟩ : Gun.GunPacket).packetType = UPDATE_STATE_PACKET ∧
    (⟨UPDATE_STATE_PACKET, 0, 3⟩ : Gun.GunPacket).sqn < gunAfterUpd.expectedSeqNum ∧
    updFrame0.packetType = UPDATE_STATE_PACKET ∧
    updFrame0.sqn ≠ vestAfterUpd.expectedSeqNum ∧
    ((Gun.handlePacket gunAfterUpd ⟨UPDATE_STATE_PACKET, 0, 3⟩ 5).2 =
        [Gun.GunEvent.tx (Gun.mkPacket gunAfterUpd GUNSTATE_ACK_PKT)] ∧
      (Gun.handlePacket gunAfterUpd ⟨UPDATE_STATE_PACKET, 0, 3⟩ 5).1.remainingBullets =
        gunAfterUpd.remainingBullets ∧
      (Gun.handlePacket gunAfterUpd ⟨UPDATE_STATE_PACKET, 0, 3⟩ 5).1.expectedSeqNum =
        gunAfterUpd.expectedSeqNum ∧
      (Gun.handlePacket gunAfterUpd ⟨UPDATE_STATE_PACKET, 0, 3⟩ 5).1.pendingIsPending =
        gunAfterUpd.pendingIsPending ∧
      (Gun.handlePacket gunAfterUpd ⟨UPDATE_STATE_PACKET, 0, 3⟩ 5).1.pendingBullets =
        gunAfterUpd.pendingBullets ∧
      Vest.handlePacket vestAfterUpd updFrame0 =
        (vestAfterUpd, [Vest.VestEvent.tx (Vest.sendNAKPacket vestAfterUpd.expectedSeqNum)])) :=
  ⟨rfl, by decide, rfl, by decide,
    duplicate_update_state_behavior gunAfterUpd ⟨UPDATE_STATE_PACKET, 0, 3⟩ 5 rfl
      (by decide) vestAfterUpd updFrame0 rfl (by decide)⟩

/-- C7 counterexample: a CRC-valid SYN frame delivered to the vest mid-session
(has_handshake = true, sqn = 3, rx_expected = 2) is routed to handlePacket,
falls into its default arm and elicits NAK(rx_expected = 2); the counters are
not reset, the SYN payload is not latched and no ACK is sent, contradicting
the claim that every CRC-valid SYN — including a mid-session one — resets the
counters and is answered with an ACK. -/
theorem vest_midsession_syn_counterexample :
    vestMid.hasHandshake = true ∧ vestMid.sqn = 3 ∧ vestMid.expectedSeqNum = 2 ∧
    Vest.serialStep vestMid synFrameV =
      (vestMid, [Vest.VestEvent.tx ⟨NAK_PACKET, 2, 0, 0⟩]) :=
  ⟨rfl, rfl, rfl, rfl⟩

/-- C7 amended: the claim holds for the gun — any CRC-valid SYN, mid-session
included, resets tx_seq and rx_expected to 0, clears has_handshake, latches
the pending bullet count from the payload and replies with an (unstored) ACK;
the subsequent CRC-valid host ACK promotes the pending state to canonical and
sets has_handshake. The vest, however, accepts SYN only while has_handshake is
false: a mid-session SYN reaches handlePacket's default arm and is answered
with NAK(rx_expected), with no reset and no re-latch. -/
theorem syn_resync_behavior
    (g g2 : Gun.GunState) (fs fa : List Nat) (now : Nat)
    (hs : (Gun.parsePacket fs).packetType = SYN_PACKET)
    (hcs : crc8 (fs.take 19) = fs.getD 19 0)
    (ha : (Gun.parsePacket fa).packetType = ACK_PACKET)
    (hca : crc8 (fa.take 19) = fa.getD 19 0)
    (v : Vest.VestState) (fv : List Nat) (hv : v.hasHandshake = true)
    (hsv : (Vest.parsePacket fv).packetType = SYN_PACKET)
    (hcv : crc8 (fv.take 19) = fv.getD 19 0) :
    Gun.serialStep g fs now =
      ({ g with
          sqn := 0
          expectedSeqNum := 0
          hasHandshake := false
          pendingBullets := (Gun.parsePacket fs).remainingBullets
          pendingIsPending := true },
        [Gun.GunEvent.tx ⟨ACK_PACKET, 0, (Gun.parsePacket fs).remainingBullets⟩]) ∧
    (Gun.serialStep g2 fa now).1.hasHandshake = true ∧
    (Gun.serialStep g2 fa now).1.remainingBullets =
      (if g2.pendingIsPending then g2.pendingBullets else g2.remainingBullets) ∧
    (Gun.serialStep g2 fa now).1.pendingIsPending = false ∧
    (Gun.serialStep g2 fa now).2 = [] ∧
    Vest.serialStep v fv = (v, [Vest.VestEvent.tx (Vest.sendNAKPacket v.expectedSeqNum)]) := by
  have hgsyn : Gun.serialStep g fs now =
      ({ g with
          sqn := 0
          expectedSeqNum := 0
          hasHandshake := false
          pendingBullets := (Gun.parsePacket fs).remainingBullets
          pendingIsPending := true },
        [Gun.GunEvent.tx ⟨ACK_PACKET, 0, (Gun.parsePacket fs).remainingBullets⟩]) := by
    unfold Gun.serialStep
    rw [if_pos hcs, hs]
    simp [Gun.sendPacket, Gun.mkPacket, ACK_PACKET, SYN_PACKET]
  have hgack : Gun.serialStep g2 fa now =
      ({ Gun.applyPendingState g2 with hasHandshake := true }, []) := by
    unfold Gun.serialStep
    rw [if_pos hca, ha]
    norm_num [ACK_PACKET, SYN_PACKET]
  have hvsyn : Vest.serialStep v fv =
      (v, [Vest.VestEvent.tx (Vest.sendNAKPacket v.expectedSeqNum)]) := by
    unfold Vest.serialStep
    rw [if_pos hcv, hv]
    norm_num
    unfold Vest.handlePacket
    rw [hsv]
    norm_num [SYN_PACKET, VESTSHOT_PACKET, UPDATE_STATE_PACKET, NAK_PACKET, KILL_PACKET]
  refine ⟨hgsyn, ?_, ?_, ?_, ?_, hvsyn⟩ <;> rw [hgack]
  · unfold Gun.applyPendingState
    split <;> simp_all
  · unfold Gun.applyPendingState
    split <;> simp_all

/-- The specification's damage rule keeps the claimed ranges. -/
theorem refDamage_bounds (p : Nat × Nat) (hs : p.1 ≤ 30) (hh : p.2 ≤ 100) :
    (Vest.refDamage 5 p).1 ≤ 30 ∧ (Vest.refDamage 5 p).2 ≤ 100 := by
  unfold Vest.refDamage
  split_ifs <;> simp_all
  all_goals omega

/-- C7 witness: the amended theorem applied to a mid-session gun receiving the
SYN fixture, the latched gun receiving the closing ACK fixture, and the
mid-session vest receiving the vest SYN fixture. -/
theorem syn_resync_behavior_witness :
    (Gun.parsePacket synFrameG).packetType = SYN_PACKET ∧
    crc8 (synFrameG.take 19) = synFrameG.getD 19 0 ∧
    (Gun.parsePacket ackFrame).packetType = ACK_PACKET ∧
    crc8 (ackFrame.take 19) = ackFrame.getD 19 0 ∧
    vestMid.hasHandshake = true ∧
    (Vest.parsePacket synFrameV).packetType = SYN_PACKET ∧
    crc8 (synFrameV.take 19) = synFrameV.getD 19 0 ∧
    (Gun.serialStep midGun synFrameG 11 =
      ({ midGun with
          sqn := 0
          expectedSeqNum := 0
          hasHandshake := false
          pendingBullets := (Gun.parsePacket synFrameG).remainingBullets
          pendingIsPending := true },
        [Gun.GunEvent.tx ⟨ACK_PACKET, 0, (Gun.parsePacket synFrameG).remainingBullets⟩]) ∧
    (Gun.serialStep gunSynLatched ackFrame 11).1.hasHandshake = true ∧
    (Gun.serialStep gunSynLatched ackFrame 11).1.remainingBullets =
      (if gunSynLatched.pendingIsPending then gunSynLatched.pendingBullets
        else gunSynLatched.remainingBullets) ∧
    (Gun.serialStep gunSynLatched ackFrame 11).1.pendingIsPending = false ∧
    (Gun.serialStep gunSynLatched ackFrame 11).2 = [] ∧
    Vest.serialStep vestMid synFrameV =
      (vestMid, [Vest.VestEvent.tx (Vest.sendNAKPacket vestMid.expectedSeqNum)])) :=
  ⟨rfl, rfl, rfl, rfl, rfl, rfl, rfl,
    syn_resync_behavior midGun gunSynLatched synFrameG ackFrame 11 rfl rfl rfl rfl
      vestMid synFrameV rfl rfl rfl⟩


/-- C9 counterexample: an in-order UPDATE_STATE whose payload bytes are 200
(gun) and (200, 250) (vest) is applied unvalidated: the gun's canonical
remaining_bullets becomes 200 > 6 and the vest's canonical shield/health
become 200 > 30 and 250 > 100, so the claimed ranges are not preserved for
arbitrary frame payload bytes. -/
theorem update_state_breaks_ranges_counterexample :
    (Gun.handlePacket Gun.readyState ⟨UPDATE_STATE_PACKET, 0, 200⟩ 0).1.remainingBullets = 200 ∧
    (Vest.handlePacket Vest.readyState ⟨UPDATE_STATE_PACKET, 0, 200, 250⟩).1.shield = 200 ∧
    (Vest.handlePacket Vest.readyState ⟨UPDATE_STATE_PACKET, 0, 200, 250⟩).1.health = 250 :=
  ⟨rfl, rfl, rfl⟩

/-- C9 amended: the internal operations preserve the ranges — a trigger press
keeps remaining_bullets (and the pending copy) in [0,6], an in-order RELOAD
sets it to 6, and an IR hit keeps pending shield in [0,30] and pending health
in [0,100] — but UPDATE_STATE (and likewise SYN latching) copies payload bytes
unvalidated into the state, so the ranges survive an UPDATE_STATE application
only when the host's payload itself is in range. -/
theorem state_ranges_preserved_conditionally
    (st : Gun.GunState) (now : Nat) (hb : st.remainingBullets ≤ 6)
    (p : Gun.GunPacket) (hp : p.packetType = UPDATE_STATE_PACKET)
    (hin : p.sqn = st.expectedSeqNum) (hpb : p.remainingBullets ≤ 6)
    (rp : Gun.GunPacket) (hr : rp.packetType = RELOAD_PACKET)
    (hrin : rp.sqn = st.expectedSeqNum)
    (v : Vest.VestState) (hvs : v.pendingShield ≤ 30) (hvh : v.pendingHealth ≤ 100)
    (q : Vest.VestPacket) (hq : q.packetType = UPDATE_STATE_PACKET)
    (hqin : q.sqn = v.expectedSeqNum) (hqs : q.shield ≤ 30) (hqh : q.health ≤ 100) :
    (Gun.readButtonPress st now).1.remainingBullets ≤ 6 ∧
    (Gun.readButtonPress st now).1.pendingBullets ≤ 6 ∧
    (Gun.handlePacket st rp now).1.remainingBullets = 6 ∧
    (Gun.handlePacket st p now).1.remainingBullets ≤ 6 ∧
    (Vest.irHit v).1.pendingShield ≤ 30 ∧
    (Vest.irHit v).1.pendingHealth ≤ 100 ∧
    (Vest.handlePacket v q).1.shield ≤ 30 ∧
    (Vest.handlePacket v q).1.health ≤ 100 := by
  have hpress : (Gun.readButtonPress st now).1.remainingBullets ≤ 6 ∧
      (Gun.readButtonPress st now).1.pendingBullets ≤ 6 := by
    unfold Gun.readButtonPress Gun.updatePendingState Gun.sendPacket Gun.storePacket
      Gun.mkPacket
    norm_num [ACK_PACKET, GUNSHOT_PACKET]
    constructor <;> split <;> simp <;> omega
  have hrel : (Gun.handlePacket st rp now).1.remainingBullets = 6 := by
    unfold Gun.handlePacket
    rw [hr, hrin]
    norm_num [RELOAD_PACKET, GUNSHOT_PACKET, UPDATE_STATE_PACKET,
      Gun.sendPacket, Gun.storePacket, Gun.mkPacket, ACK_PACKET]
  have hupd : (Gun.handlePacket st p now).1.remainingBullets = p.remainingBullets := by
    unfold Gun.handlePacket
    rw [hp, hin]
    norm_num [UPDATE_STATE_PACKET, GUNSHOT_PACKET, RELOAD_PACKET,
      Gun.sendPacket, Gun.storePacket, Gun.mkPacket, ACK_PACKET, GUNSTATE_ACK_PKT]
  have hv1 : (Vest.irHit v).1.pendingShield = (Vest.refDamage 5 (Vest.pendingPair v)).1 :=
    congrArg Prod.fst (irHit_pendingPair v)
  have hv2 : (Vest.irHit v).1.pendingHealth = (Vest.refDamage 5 (Vest.pendingPair v)).2 :=
    congrArg Prod.snd (irHit_pendingPair v)
  have hvb := refDamage_bounds (Vest.pendingPair v) hvs hvh
  have hvupd : (Vest.handlePacket v q).1.shield = q.shield ∧
      (Vest.handlePacket v q).1.health = q.health := by
    unfold Vest.handlePacket
    rw [hq, hqin]
    norm_num [UPDATE_STATE_PACKET, VESTSHOT_PACKET, Vest.updatePendingState,
      Vest.sendPacket, Vest.storePacket, Vest.applyPendingState, Vest.mkPacket,
      ACK_PACKET, VESTSTATE_ACK_PKT]
  refine ⟨hpress.1, hpress.2, hrel, ?_, ?_, ?_, ?_, ?_⟩
  · rw [hupd]; exact hpb
  · rw [hv1]; exact hvb.1
  · rw [hv2]; exact hvb.2
  · rw [hvupd.1]; exact hqs
  · rw [hvupd.2]; exact hqh

/-- C9 witness: the amended theorem applied to the ready peripherals with
in-range host payloads (bullets 3, shield 10, health 90). -/
theorem state_ranges_preserved_conditionally_witness :
    Gun.readyState.remainingBullets ≤ 6 ∧
    (⟨UPDATE_STATE_PACKET, 0, 3⟩ : Gun.GunPacket).remainingBullets ≤ 6 ∧
    Vest.readyState.pendingShield ≤ 30 ∧ Vest.readyState.pendingHealth ≤ 100 ∧
    updFrame0.shield ≤ 30 ∧ updFrame0.health ≤ 100 ∧
    ((Gun.readButtonPress Gun.readyState 4).1.remainingBullets ≤ 6 ∧
      (Gun.readButtonPress Gun.readyState 4).1.pendingBullets ≤ 6 ∧
      (Gun.handlePacket Gun.readyState ⟨RELOAD_PACKET, 0, 0⟩ 4).1.remainingBullets = 6 ∧
      (Gun.handlePacket Gun.readyState ⟨UPDATE_STATE_PACKET, 0, 3⟩ 4).1.remainingBullets ≤ 6 ∧
      (Vest.irHit Vest.readyState).1.pendingShield ≤ 30 ∧
      (Vest.irHit Vest.readyState).1.pendingHealth ≤ 100 ∧
      (Vest.handlePacket Vest.readyState updFrame0).1.shield ≤ 30 ∧
      (Vest.handlePacket Vest.readyState updFrame0).1.health ≤ 100) :=
  ⟨by decide, by decide, by decide, by decide, by decide, by decide,
    state_ranges_preserved_conditionally Gun.readyState 4 (by decide)
      ⟨UPDATE_STATE_PACKET, 0, 3⟩ rfl (by decide) (by decide)
      ⟨RELOAD_PACKET, 0, 0⟩ rfl (by decide)
      Vest.readyState (by decide) (by decide)
      updFrame0 rfl (by decide) (by decide) (by decide)⟩

-- Ring-buffer helper lemmas for C10.

/-- storePacket advances the cursor by one, mod 4. -/
theorem storePacket_idx (st : Gun.GunState) (p : Gun.GunPacket) :
    (Gun.storePacket st p).currBufferIdx = (st.currBufferIdx + 1) % 4 := rfl

/-- The slot at the cursor receives the stored packet. -/
theorem storePacket_packets_self (st : Gun.GunState) (p : Gun.GunPacket) (i : Fin 4)
    (h : i.val = st.currBufferIdx % 4) :
    (Gun.storePacket st p).packets i = p := by
  unfold Gun.storePacket
  have hi : i = ⟨st.currBufferIdx % 4, Nat.mod_lt _ (by decide)⟩ := Fin.ext h
  rw [hi]
  simp

/-- Slots other than the cursor's are untouched by storePacket. -/
theorem storePacket_packets_ne (st : Gun.GunState) (p : Gun.GunPacket) (i : Fin 4)
    (h : i.val ≠ st.currBufferIdx % 4) :
    (Gun.storePacket st p).packets i = st.packets i := by
  have hne : i ≠ (⟨st.currBufferIdx % 4, Nat.mod_lt _ (by decide)⟩ : Fin 4) := by
    intro heq
    exact h (by rw [heq])
  unfold Gun.storePacket
  simp [Function.update_noteq hne]

/-- Folding storePacket advances the cursor by the number of stores, mod 4. -/
theorem storeMany_idx (ps : List Gun.GunPacket) (st : Gun.GunState)
    (h : st.currBufferIdx < 4) :
    (Gun.storeMany st ps).currBufferIdx = (st.currBufferIdx + ps.length) % 4 := by
  induction ps generalizing st with
  | nil => simp [Gun.storeMany, Nat.mod_eq_of_lt h]
  | cons q qs ih =>
    have h2 : (Gun.storePacket st q).currBufferIdx < 4 := Nat.mod_lt _ (by decide)
    have hrec := ih (Gun.storePacket st q) h2
    simp only [Gun.storeMany, List.foldl_cons] at hrec ⊢
    rw [hrec, storePacket_idx, List.length_cons]
    omega

/-- After storing ps from cursor 0, slot j mod 4 holds ps[j] whenever j is
among the last four stores. -/
theorem storeMany_slot (st : Gun.GunState) (h : st.currBufferIdx = 0)
    (ps : List Gun.GunPacket) :
    ∀ j (hj : j < ps.length), ps.length ≤ j + 4 →
      (Gun.storeMany st ps).packets ⟨j % 4, Nat.mod_lt _ (by decide)⟩ =
        ps.get ⟨j, hj⟩ := by
  induction ps using List.reverseRecOn with
  | nil => intro j hj _; simp at hj
  | append_singleton qs q ih =>
    intro j hj hwin
    have hfold : Gun.storeMany st (qs ++ [q]) =
        Gun.storePacket (Gun.storeMany st qs) q := by
      simp [Gun.storeMany, List.foldl_append]
    have hc : (Gun.storeMany st qs).currBufferIdx = qs.length % 4 := by
      rw [storeMany_idx qs st (by omega), h]
      omega
    have hlen : (qs ++ [q]).length = qs.length + 1 := by simp
    rw [hfold]
    rcases Nat.lt_or_ge j qs.length with hjq | hjq
    · rw [storePacket_packets_ne _ _ _
          (show j % 4 ≠ (Gun.storeMany st qs).currBufferIdx % 4 by rw [hc]; omega),
        ih j hjq (by omega)]
      rw [List.get_append]
    · have hj' : j = qs.length := by omega
      subst hj'
      rw [storePacket_packets_self _ _ _
          (show qs.length % 4 = (Gun.storeMany st qs).currBufferIdx % 4 by rw [hc]; omega)]
      exact (List.get_of_append rfl rfl).symm

/-- sendPacket with the handshake ACK type leaves the state unchanged. -/
theorem sendPacket_ack_id (st : Gun.GunState) :
    (Gun.sendPacket st ACK_PACKET).1 = st := by
  unfold Gun.sendPacket
  simp

/-- Folding sendPacket advances the cursor by the number of non-ACK sends. -/
theorem sendMany_idx (ts : List Nat) (st : Gun.GunState) (h : st.currBufferIdx < 4) :
    (Gun.sendMany st ts).currBufferIdx =
      (st.currBufferIdx + (ts.filter (fun t => t != ACK_PACKET)).length) % 4 := by
  induction ts generalizing st with
  | nil => simp [Gun.sendMany, Nat.mod_eq_of_lt h]
  | cons t ts ih =>
    simp only [Gun.sendMany, List.foldl_cons] at ih ⊢
    by_cases ht : t = ACK_PACKET
    · subst ht
      rw [show (Gun.sendPacket st ACK_PACKET).1 = st from sendPacket_ack_id st,
        ih st h, List.filter_cons]
      simp
    · have hstep : (Gun.sendPacket st t).1 = Gun.storePacket st (Gun.mkPacket st t) := by
        unfold Gun.sendPacket
        simp [ht]
      have h2 : (Gun.storePacket st (Gun.mkPacket st t)).currBufferIdx < 4 :=
        Nat.mod_lt _ (by decide)
      rw [hstep, ih _ h2, storePacket_idx, List.filter_cons]
      simp only [ht, bne_iff_ne, ne_eq, not_false_eq_true, if_true, List.length_cons]
      omega

/-- C10: the storage discipline of the 4-slot retransmit ring. Over any list
of sendPacket calls, the cursor advances by exactly the number of non-ACK
sends, mod 4 (handshake ACK frames are not stored and do not move it; role
ACKs such as GUNSTATE_ACK, VESTSTATE_ACK and RELOAD echoes are stored and do
move it, one per send, independently of any seq value); and the slot
retreivePacket consults for a NAK(n) — slot n mod 4 — holds the frame that was
sent with seq n when the stored frames carried seq values in lockstep with
their store positions and n is among the last four stores. -/
theorem tx_ring_storage_discipline
    (st : Gun.GunState) (ts : List Nat) (hidx : st.currBufferIdx < 4)
    (st0 : Gun.GunState) (h0 : st0.currBufferIdx = 0)
    (ps : List Gun.GunPacket) (j : Nat) (hj : j < ps.length) (hwin : ps.length ≤ j + 4)
    (hseq : ∀ i (hi : i < ps.length), (ps.get ⟨i, hi⟩).sqn = i)
    (v : Vest.VestState) :
    (Gun.sendMany st ts).currBufferIdx =
      (st.currBufferIdx + (ts.filter (fun t => t != ACK_PACKET)).length) % 4 ∧
    (Gun.sendPacket st GUNSTATE_ACK_PKT).1.currBufferIdx = (st.currBufferIdx + 1) % 4 ∧
    (Gun.sendPacket st RELOAD_PACKET).1.currBufferIdx = (st.currBufferIdx + 1) % 4 ∧
    (Gun.sendPacket st ACK_PACKET).1 = st ∧
    (Vest.sendPacket v VESTSTATE_ACK_PKT).1.currBufferIdx = (v.currBufferIdx + 1) % 4 ∧
    (Vest.sendPacket v ACK_PACKET).1 = v ∧
    Gun.retreivePacket (Gun.storeMany st0 ps) ((ps.get ⟨j, hj⟩).sqn) = ps.get ⟨j, hj⟩ := by
  refine ⟨sendMany_idx ts st hidx, ?_, ?_, sendPacket_ack_id st, ?_, ?_, ?_⟩
  · unfold Gun.sendPacket
    norm_num [GUNSTATE_ACK_PKT, ACK_PACKET, Gun.storePacket]
  · unfold Gun.sendPacket
    norm_num [RELOAD_PACKET, ACK_PACKET, Gun.storePacket]
  · unfold Vest.sendPacket
    norm_num [VESTSTATE_ACK_PKT, ACK_PACKET, Vest.storePacket]
  · unfold Vest.sendPacket
    simp
  · rw [hseq j hj]
    unfold Gun.retreivePacket
    exact storeMany_slot st0 h0 ps j hj hwin

/-- C10 witness: the discipline applied to a concrete send list (GUNSHOT,
handshake ACK, GUNSTATE_ACK, RELOAD — the ACK is skipped, three sends stored)
and to the five lockstep GUNSHOT frames with j = 2. -/
theorem tx_ring_storage_discipline_witness :
    midGun.currBufferIdx < 4 ∧
    Gun.readyState.currBufferIdx = 0 ∧
    2 < shotPackets.length ∧
    shotPackets.length ≤ 2 + 4 ∧
    (∀ i (hi : i < shotPackets.length), (shotPackets.get ⟨i, hi⟩).sqn = i) ∧
    ((Gun.sendMany midGun [71, 65, 88, 82]).currBufferIdx =
      (midGun.currBufferIdx + ([71, 65, 88, 82].filter (fun t => t != ACK_PACKET)).length) % 4 ∧
    (Gun.sendPacket midGun GUNSTATE_ACK_PKT).1.currBufferIdx = (midGun.currBufferIdx + 1) % 4 ∧
    (Gun.sendPacket midGun RELOAD_PACKET).1.currBufferIdx = (midGun.currBufferIdx + 1) % 4 ∧
    (Gun.sendPacket midGun ACK_PACKET).1 = midGun ∧
    (Vest.sendPacket vestMid VESTSTATE_ACK_PKT).1.currBufferIdx = (vestMid.currBufferIdx + 1) % 4 ∧
    (Vest.sendPacket vestMid ACK_PACKET).1 = vestMid ∧
    Gun.retreivePacket (Gun.storeMany Gun.readyState shotPackets)
        ((shotPackets.get ⟨2, by decide⟩).sqn) = shotPackets.get ⟨2, by decide⟩) :=
  ⟨by decide, rfl, by decide, by decide, by decide,
    tx_ring_storage_discipline midGun [71, 65, 88, 82] (by decide)
      Gun.readyState rfl shotPackets 2 (by decide) (by decide) (by decide) vestMid⟩

end InternalComms
